import Mathlib

/-!
Verification of the mergify-community core: the branch-ancestry classifier
(`is_behind`), the identifier format validators
(`_check_GitHubLogin_format`, `_check_GitHubTeam_format`) and the sandboxed
template validator/renderer (`DummyPullRequest.render_template`, `Jinja2`,
`Jinja2WithNone`) from `mergify_engine/rules/types.py` and
`mergify_engine/tests/unit/test_behind.py`.

Strings manipulated character-by-character by the Python code are embedded as
`List Char`; Python's short-circuit `or` chains of boolean tests become `||`
chains; functions that `raise voluptuous.Invalid` / Python exceptions become
`Except`-valued functions carrying the raised message.
-/

namespace Mergify

/-- Results of fallible operations are compared concretely throughout, so
equality on `Except` must be decidable. -/
instance {ε α : Type} [DecidableEq ε] [DecidableEq α] : DecidableEq (Except ε α)
  | Except.error x, Except.error y =>
    if h : x = y then Decidable.isTrue (by rw [h])
    else Decidable.isFalse (by intro hc; injection hc; exact h (by assumption))
  | Except.error _, Except.ok _ => Decidable.isFalse (by intro hc; exact Except.noConfusion hc)
  | Except.ok _, Except.error _ => Decidable.isFalse (by intro hc; exact Except.noConfusion hc)
  | Except.ok x, Except.ok y =>
    if h : x = y then Decidable.isTrue (by rw [h])
    else Decidable.isFalse (by intro hc; injection hc; exact h (by assumption))

/-! ### Commit graph model and ancestry classifier -/

/-- A commit: an identifier plus the ordered identifiers of its parents.
Mirrors the dictionaries built by `create_commit` in
`tests/unit/test_behind.py` (`{"sha": ..., "parents": [...]}`), with the
parent entries reduced to their identifiers, which is all the classifier
reads. -/
structure Commit where
  id : String
  parents : List String
deriving DecidableEq

/-- Modelled from the spec: `context.Context.is_behind` is exercised by
`tests/unit/test_behind.py` but its body is not part of the source fragment.
Per the spec (§4.2): consume the commit window in order, accumulating every
identifier appearing as a commit's own id or as one of its parent ids; return
`false` (not behind) as soon as the base tip is found, `true` (behind) if the
window is exhausted without finding it.  Since a newly consumed commit is the
only way the accumulated set grows, checking the base tip against each
commit's own id and parent ids as it is consumed is the same early-exit
computation. -/
def isBehind : List Commit → String → Bool
  | [], _ => true
  | c :: rest, baseTip =>
    if baseTip = c.id ∨ baseTip ∈ c.parents then false
    else isBehind rest baseTip

/-- The membership property the spec states: the base tip appears somewhere in
the window, as a commit id or as a parent id. -/
def tipInWindow (w : List Commit) (t : String) : Prop :=
  ∃ c ∈ w, t = c.id ∨ t ∈ c.parents

instance (w : List Commit) (t : String) : Decidable (tipInWindow w t) := by
  unfold tipInWindow; infer_instance

/-! ### Python string primitives used by the validators -/

/-- Python `str.isascii()`: every code point is below 128 (true on the empty
string). -/
def pyIsAscii (s : List Char) : Bool :=
  s.all (fun c => c.toNat < 128)

/-- Python `str.isalnum()` restricted to the ASCII range: at least one
character and every character an ASCII letter or digit.  The validators only
consult this test jointly with `isascii` in one `or` chain, so the verdict of
the chain never depends on how `isalnum` classifies a non-ASCII character;
the ASCII-only reading is therefore verdict-equivalent to Python's. -/
def pyIsAlnum (s : List Char) : Bool :=
  !s.isEmpty && s.all (fun c => c.isAlphanum)

/-- Python `value.replace(old, "")` for a single-character `old`: drop every
occurrence of that character. -/
def pyStripChar (ban : Char) (s : List Char) : List Char :=
  s.filter (fun c => c ≠ ban)

/-- Python `value[-1]` on a nonempty string (the default is never exposed:
every caller has ruled out the empty string first). -/
def lastChar : List Char → Char
  | [] => 'a'
  | [c] => c
  | _ :: c :: cs => lastChar (c :: cs)

/-- Python `value.partition("/")` reduced to what the team validator uses:
`none` when no slash occurs (Python's `sep == "" and team == ""` branch),
`some (before, after)` split at the first slash otherwise. -/
def splitFirstSlash : List Char → Option (List Char × List Char)
  | [] => none
  | c :: cs =>
    if c = '/' then some ([], cs)
    else (splitFirstSlash cs).map (fun p => (c :: p.1, p.2))

/-! ### Identifier format validators (`rules/types.py`, lines 194-245) -/

/-- `_check_GitHubLogin_format(value, _type)`: rejects the empty string, then
rejects when the first or last character is a hyphen, the string is not pure
ASCII, or dropping every hyphen leaves something that is not purely
alphanumeric (or leaves nothing); otherwise returns the value unchanged. -/
def check_GitHubLogin_format (t : String) (value : List Char) : Except String (List Char) :=
  match value with
  | [] => Except.error ("A GitHub " ++ t ++ " cannot be an empty string")
  | c :: cs =>
    if c == '-' || lastChar (c :: cs) == '-'
        || !(pyIsAscii (c :: cs))
        || !(pyIsAlnum (pyStripChar '-' (c :: cs))) then
      Except.error ("GitHub " ++ t ++ " contains invalid characters")
    else
      Except.ok (c :: cs)

/-- The final slug test of `_check_GitHubTeam_format`: rejects the empty slug,
then rejects a leading or trailing hyphen, non-ASCII content, or a residue
after dropping hyphens and underscores that is not purely alphanumeric;
returns the slug (only the slug) on success. -/
def teamSlugCheck (team : List Char) : Except String (List Char) :=
  match team with
  | [] => Except.error "A GitHub team cannot be an empty string"
  | c :: cs =>
    if c == '-' || lastChar (c :: cs) == '-'
        || !(pyIsAscii (c :: cs))
        || !(pyIsAlnum (pyStripChar '_' (pyStripChar '-' (c :: cs)))) then
      Except.error "GitHub team contains invalid characters"
    else
      Except.ok (c :: cs)

/-- `_check_GitHubTeam_format(value)`: rejects the empty string; strips one
leading `@`; splits at the first `/` — when a slash is present the part
before it is validated with `_check_GitHubLogin_format(org, "organization")`
and the part after it is the team slug, otherwise the whole remainder is the
slug; finally applies the slug checks and returns the slug. -/
def check_GitHubTeam_format (value : List Char) : Except String (List Char) :=
  match value with
  | [] => Except.error "A GitHub team cannot be an empty string"
  | c :: cs =>
    let v := if c = '@' then cs else c :: cs
    match splitFirstSlash v with
    | none => teamSlugCheck v
    | some (org, team) =>
      match check_GitHubLogin_format "organization" org with
      | Except.error e => Except.error e
      | Except.ok _ => teamSlugCheck team

/-- The spec's interface for team references (`isValidTeamReference(str) →
(organization?, slug)|error`), written from the spec's words for comparison
with `check_GitHubTeam_format`: same acceptance conditions, but the result
carries the organization prefix (when present) together with the slug. -/
def teamReferenceSpec (value : List Char) : Except String (Option (List Char) × List Char) :=
  match value with
  | [] => Except.error "A GitHub team cannot be an empty string"
  | c :: cs =>
    let v := if c = '@' then cs else c :: cs
    match splitFirstSlash v with
    | none =>
      match teamSlugCheck v with
      | Except.error e => Except.error e
      | Except.ok team => Except.ok (none, team)
    | some (org, team) =>
      match check_GitHubLogin_format "organization" org with
      | Except.error e => Except.error e
      | Except.ok _ =>
        match teamSlugCheck team with
        | Except.error e => Except.error e
        | Except.ok team' => Except.ok (some org, team')

/-! ### Attribute resolution facade (`rules/types.py`, lines 41-61)

`context.PullRequest.ATTRIBUTES` and `context.PullRequest.LIST_ATTRIBUTES`
live outside the source fragment; the spec only says they are two disjoint
closed sets of names, so every definition below takes the two sets as
parameters `A` (scalar) and `L` (list). -/

/-- A value a template variable can take: the fixed `None` placeholder that
`DummyContext` returns for scalar attributes, a string, or a list (of
rendered strings — nesting is irrelevant to every claim). -/
inductive Value where
  | vnone : Value
  | vstr : String → Value
  | vlist : List String → Value
deriving DecidableEq

/-- How a value prints when substituted into a template (Python `str`). -/
def valueToStr : Value → String
  | Value.vnone => "None"
  | Value.vstr s => s
  | Value.vlist xs => "[" ++ String.intercalate ", " xs ++ "]"

/-- `DummyContext._get_consolidated_data(key)`: `None` for a scalar attribute,
the empty list for a list attribute, and `PullRequestAttributeError(key)`
(carried here as the key itself) for everything else. -/
def get_consolidated_data (A L : List String) (key : String) : Except String Value :=
  if key ∈ A then Except.ok Value.vnone
  else if key ∈ L then Except.ok (Value.vlist [])
  else Except.error key

/-- Python `name.replace("_", "-")`: a single-character pattern, so a
character-wise map. -/
def underscoreToHyphen (s : String) : String :=
  String.mk (s.data.map (fun c => if c = '_' then '-' else c))

/-- `DummyPullRequest.__getattr__(name)`: translate underscores to hyphens,
then look the key up in the consolidated data. -/
def dummyGetattr (A L : List String) (name : String) : Except String Value :=
  get_consolidated_data A L (underscoreToHyphen name)

/-! ### Sandboxed expression engine (`rules/types.py`, lines 63-191)

The Jinja2 library itself is an external dependency: only the calls
`env.parse`, `jinja2.meta.find_undeclared_variables` and
`env.from_string(...).render(**infos)` are made.  The parsed template is
embedded as an AST of literal text, variable references and concatenation;
the string-to-AST parse itself stays an explicit parameter
`parse : String → Except ParseError Tmpl`, so every theorem below holds for
every parser. -/

/-- A parsed template: literal text, a variable reference, concatenation. -/
inductive Tmpl where
  | lit : String → Tmpl
  | var : String → Tmpl
  | seq : Tmpl → Tmpl → Tmpl
deriving DecidableEq

/-- A `jinja2.exceptions.TemplateSyntaxError`: a message and a line number. -/
structure ParseError where
  msg : String
  lineno : Nat
deriving DecidableEq

/-- `jinja2.meta.find_undeclared_variables`: the free variable names of the
template (as a list; the Python set makes order and multiplicity irrelevant,
and so do the theorems below). -/
def tmplVars : Tmpl → List String
  | Tmpl.lit _ => []
  | Tmpl.var n => [n]
  | Tmpl.seq a b => tmplVars a ++ tmplVars b

/-- Modelled from the spec: `context.RenderTemplateFailure` and the
`_template_exceptions_mapping` context manager are outside the source
fragment.  Per the spec's error taxonomy (§7), a template operation fails as
a syntax error (with a line number), an unknown-attribute reference (the
validator's `PullRequestAttributeError`), or a residual render failure. -/
inductive RenderTemplateFailure where
  | parseFailure : String → Nat → RenderTemplateFailure
  | unknownAttribute : String → RenderTemplateFailure
  | renderFailure : String → RenderTemplateFailure
deriving DecidableEq

/-- `rtf.lineno`: only a Jinja2 parse error carries a source line. -/
def RenderTemplateFailure.lineno : RenderTemplateFailure → Option Nat
  | RenderTemplateFailure.parseFailure _ n => some n
  | RenderTemplateFailure.unknownAttribute _ => none
  | RenderTemplateFailure.renderFailure _ => none

/-- `str(rtf)`: the text of the failure. -/
def RenderTemplateFailure.toMessage : RenderTemplateFailure → String
  | RenderTemplateFailure.parseFailure m _ => m
  | RenderTemplateFailure.unknownAttribute n => "Unable to get pull request attribute: " ++ n
  | RenderTemplateFailure.renderFailure m => m

/-- Jinja2 rendering of a parsed template against the collected variable
values, under `StrictUndefined`: a variable missing from `infos` is a render
failure; everything else concatenates. -/
def renderAst (infos : List (String × Value)) : Tmpl → Except RenderTemplateFailure String
  | Tmpl.lit s => Except.ok s
  | Tmpl.var n =>
    match infos.lookup n with
    | some v => Except.ok (valueToStr v)
    | none => Except.error (RenderTemplateFailure.renderFailure (n ++ " is undefined"))
  | Tmpl.seq a b =>
    match renderAst infos a with
    | Except.error e => Except.error e
    | Except.ok x =>
      match renderAst infos b with
      | Except.error e => Except.error e
      | Except.ok y => Except.ok (x ++ y)

/-- Python's `if extra_variables and k in extra_variables` plus
`extra_variables[k]`: `None` and the empty mapping are both falsy, so only a
present, non-empty mapping can supply a value. -/
def lookupExtra (extra : Option (List (String × Value))) (k : String) : Option Value :=
  match extra with
  | none => none
  | some ev => if ev.isEmpty then none else ev.lookup k

/-- One iteration of the `for k in used_variables` loop of
`render_template`: the extra-variables mapping wins when it applies,
otherwise `getattr(self, k)` resolves the name (its
`PullRequestAttributeError` mapped, per the spec, to `unknownAttribute`). -/
def resolveVar (A L : List String) (extra : Option (List (String × Value)))
    (k : String) : Except RenderTemplateFailure Value :=
  match lookupExtra extra k with
  | some v => Except.ok v
  | none =>
    match dummyGetattr A L k with
    | Except.ok v => Except.ok v
    | Except.error name => Except.error (RenderTemplateFailure.unknownAttribute name)

/-- The `infos` dictionary built by the loop of `render_template`, failing at
the first variable whose resolution raises. -/
def buildInfos (resolve : String → Except RenderTemplateFailure Value) :
    List String → Except RenderTemplateFailure (List (String × Value))
  | [] => Except.ok []
  | k :: ks =>
    match resolve k with
    | Except.error e => Except.error e
    | Except.ok v =>
      match buildInfos resolve ks with
      | Except.error e => Except.error e
      | Except.ok rest => Except.ok ((k, v) :: rest)

/-- The body of `DummyPullRequest.render_template` with the per-variable
resolution abstracted: parse, collect the free variables, build `infos`,
render.  A parse failure is mapped (per the spec's exception mapping) to a
`parseFailure` carrying the Jinja2 line number. -/
def render_templateWith (parse : String → Except ParseError Tmpl)
    (resolve : String → Except RenderTemplateFailure Value)
    (template : String) : Except RenderTemplateFailure String :=
  match parse template with
  | Except.error e => Except.error (RenderTemplateFailure.parseFailure e.msg e.lineno)
  | Except.ok ast =>
    match buildInfos resolve (tmplVars ast) with
    | Except.error e => Except.error e
    | Except.ok infos => renderAst infos ast

/-- `DummyPullRequest.render_template(template, extra_variables)`: the
validation-time renderer, resolving attributes against the synthetic
consolidated data. -/
def render_template (parse : String → Except ParseError Tmpl) (A L : List String)
    (template : String) (extra : Option (List (String × Value))) :
    Except RenderTemplateFailure String :=
  render_templateWith parse (resolveVar A L extra) template

/-- Modelled from the spec: the per-variable resolution of the *live* render
path (the real `PullRequest.render_template` is outside the source
fragment).  Per the spec (§4.3-4.4) it performs the same free-variable
resolution with extra variables taking priority, against the live attribute
store `live` (absence of the translated key is the `UnknownAttribute`
failure). -/
def resolveVarLive (live : String → Option Value)
    (extra : Option (List (String × Value))) (k : String) :
    Except RenderTemplateFailure Value :=
  match lookupExtra extra k with
  | some v => Except.ok v
  | none =>
    match live (underscoreToHyphen k) with
    | some v => Except.ok v
    | none => Except.error (RenderTemplateFailure.unknownAttribute (underscoreToHyphen k))

/-- Modelled from the spec: the live render path — the same engine body as
`render_template`, with live attribute resolution. -/
def render_templateLive (parse : String → Except ParseError Tmpl)
    (live : String → Option Value) (template : String)
    (extra : Option (List (String × Value))) : Except RenderTemplateFailure String :=
  render_templateWith parse (resolveVarLive live extra) template

/-! ### The voluptuous validators `Jinja2` / `Jinja2WithNone`
(`rules/types.py`, lines 30-38 and 165-191) -/

/-- `LineColumnPath`: the path element attached to a template validation
failure. -/
structure LineColumnPath where
  line : Nat
  column : Option Nat
deriving DecidableEq

/-- A raised `voluptuous.Invalid`: the message, the optional
`error_message`, and the optional path. -/
structure Invalid where
  msg : String
  error_message : Option String
  path : Option (List LineColumnPath)
deriving DecidableEq

/-- `Jinja2(value, extra_variables)`: `None` is rejected outright with
"Template cannot be null"; otherwise the template is dry-run through
`_DUMMY_PR.render_template` and any `RenderTemplateFailure` is re-raised as
`voluptuous.Invalid("Template syntax error", error_message=str(rtf),
path=[LineColumnPath(rtf.lineno, None)] if rtf.lineno else None)`; on
success the original value is returned. -/
def Jinja2 (parse : String → Except ParseError Tmpl) (A L : List String)
    (value : Option String) (extra_variables : Option (List (String × Value))) :
    Except Invalid (Option String) :=
  match value with
  | none => Except.error (Invalid.mk "Template cannot be null" none none)
  | some v =>
    match render_template parse A L v extra_variables with
    | Except.error rtf =>
      Except.error (Invalid.mk "Template syntax error" (some rtf.toMessage)
        (match rtf.lineno with
         | none => none
         | some n => some [LineColumnPath.mk n none]))
    | Except.ok _ => Except.ok (some v)

/-- `Jinja2WithNone(value, extra_variables)`: `None` short-circuits to
`None`; anything else is delegated to `Jinja2` unchanged. -/
def Jinja2WithNone (parse : String → Except ParseError Tmpl) (A L : List String)
    (value : Option String) (extra_variables : Option (List (String × Value))) :
    Except Invalid (Option String) :=
  match value with
  | none => Except.ok none
  | some v => Jinja2 parse A L (some v) extra_variables

/-- The rejection condition the spec states for account logins: empty, a
leading or trailing hyphen, non-ASCII content, or a residue after stripping
hyphens that is not purely alphanumeric. -/
def loginRejectSpec (v : List Char) : Prop :=
  v = [] ∨ v.head? = some '-' ∨ v.getLast? = some '-'
    ∨ pyIsAscii v = false ∨ pyIsAlnum (pyStripChar '-' v) = false

instance (v : List Char) : Decidable (loginRejectSpec v) := by
  unfold loginRejectSpec; infer_instance

/-- The rejection condition the spec states for team slugs: empty, a leading
or trailing hyphen, non-ASCII content, or a residue after stripping hyphens
and underscores that is not purely alphanumeric. -/
def teamRejectSpec (v : List Char) : Prop :=
  v = [] ∨ v.head? = some '-' ∨ v.getLast? = some '-'
    ∨ pyIsAscii v = false ∨ pyIsAlnum (pyStripChar '_' (pyStripChar '-' v)) = false

instance (v : List Char) : Decidable (teamRejectSpec v) := by
  unfold teamRejectSpec; infer_instance

/-- A parser that always yields the given template; witnesses instantiate the
theorems' parser parameter with it. -/
def parseConst (t : Tmpl) : String → Except ParseError Tmpl :=
  fun _ => Except.ok t

/-- A parser that always reports a syntax error on line 1. -/
def parseNever : String → Except ParseError Tmpl :=
  fun _ => Except.error (ParseError.mk "unexpected end of template" 1)

/-- Whether a validator outcome is the "Template syntax error" validation
failure — the single shape under which `Jinja2` reports every template
problem. -/
def reportsTemplateError (r : Except Invalid (Option String)) : Bool :=
  match r with
  | Except.error e => e.msg == "Template syntax error"
  | Except.ok _ => false

/-- Whether a render outcome is an unknown-attribute failure. -/
def isUnknownAttributeFailure (r : Except RenderTemplateFailure String) : Bool :=
  match r with
  | Except.error (RenderTemplateFailure.unknownAttribute _) => true
  | _ => false

end Mergify

namespace Mergify

/-! ## Supporting lemmas -/

theorem lastChar_eq_getLast? (c : Char) (cs : List Char) :
    (c :: cs).getLast? = some (lastChar (c :: cs)) := by
  induction cs generalizing c with
  | nil => rfl
  | cons d ds ih => simpa [lastChar, List.getLast?] using ih d

theorem tipInWindow_cons (c : Commit) (w : List Commit) (t : String) :
    tipInWindow (c :: w) t ↔ (t = c.id ∨ t ∈ c.parents) ∨ tipInWindow w t := by
  simp [tipInWindow, List.exists_mem_cons_iff]

/-! ## Claims about the ancestry classifier -/

/-- Claim C1: for every commit window `w` and base tip `t`, `isBehind w t`
returns `false` exactly when `t` equals some commit id or some parent id
appearing anywhere in `w`, and returns `true` otherwise. -/
theorem isBehind_false_iff_tipInWindow (w : List Commit) (t : String) :
    (isBehind w t = false ↔ tipInWindow w t)
    ∧ (isBehind w t = true ↔ ¬ tipInWindow w t) := by
  have key : isBehind w t = false ↔ tipInWindow w t := by
    induction w with
    | nil =>
      simp [isBehind, tipInWindow]
    | cons c rest ih =>
      by_cases hc : t = c.id ∨ t ∈ c.parents
      · simp [isBehind, hc, tipInWindow_cons]
      · simp [isBehind, hc, tipInWindow_cons, ih]
  refine ⟨key, ?_⟩
  cases h : isBehind w t with
  | false => simpa [h] using key.mp h
  | true =>
    simp only [true_iff]
    intro hin
    exact absurd (key.mpr hin) (by simp [h])

/-- Claim C9: the empty commit window is classified as behind for every base
tip. -/
theorem isBehind_nil (t : String) : isBehind [] t = true := rfl

/-! ## Claims about the identifier format validators -/

theorem loginRejectSpec_cons_iff (c : Char) (cs : List Char) :
    loginRejectSpec (c :: cs) ↔
      (c == '-' || lastChar (c :: cs) == '-' || !(pyIsAscii (c :: cs))
        || !(pyIsAlnum (pyStripChar '-' (c :: cs)))) = true := by
  rw [loginRejectSpec, lastChar_eq_getLast?]
  simp only [Bool.or_eq_true, Bool.not_eq_true', beq_iff_eq, List.head?_cons,
    Option.some.injEq, List.cons_ne_nil, false_or]
  tauto

theorem login_isOk_false_iff (t : String) (v : List Char) :
    (check_GitHubLogin_format t v).isOk = false ↔ loginRejectSpec v := by
  cases v with
  | nil => simp [check_GitHubLogin_format, loginRejectSpec, Except.isOk, Except.toBool]
  | cons c cs =>
    rw [check_GitHubLogin_format, loginRejectSpec_cons_iff]
    by_cases h : (c == '-' || lastChar (c :: cs) == '-' || !(pyIsAscii (c :: cs))
        || !(pyIsAlnum (pyStripChar '-' (c :: cs)))) = true
    · simp [h, Except.isOk, Except.toBool]
    · simp [h, Except.isOk, Except.toBool]

/-- Claim C4 (amended): the account-login validator fails exactly when the
string is empty, its first or last character is a hyphen, it contains a
non-ASCII character, or stripping hyphens leaves a non-alphanumeric residue;
`""`, `"-abc"` and `"abc-"` are rejected while `"abc"`, `"a-b-c"` and
`"ab--c"` are accepted (`"ab--c"` passes every stated condition: stripping
its hyphens leaves the alphanumeric `"abc"`). -/
theorem check_GitHubLogin_format_spec :
    (∀ v, (check_GitHubLogin_format "login" v).isOk = false ↔ loginRejectSpec v)
    ∧ check_GitHubLogin_format "login" (String.toList "")
        = Except.error "A GitHub login cannot be an empty string"
    ∧ (check_GitHubLogin_format "login" (String.toList "-abc")).isOk = false
    ∧ (check_GitHubLogin_format "login" (String.toList "abc-")).isOk = false
    ∧ check_GitHubLogin_format "login" (String.toList "abc")
        = Except.ok (String.toList "abc")
    ∧ check_GitHubLogin_format "login" (String.toList "a-b-c")
        = Except.ok (String.toList "a-b-c")
    ∧ check_GitHubLogin_format "login" (String.toList "ab--c")
        = Except.ok (String.toList "ab--c") :=
  ⟨login_isOk_false_iff "login", by decide, by decide, by decide, by decide,
    by decide, by decide⟩

/-- Claim C4, counterexample: the claim lists `"ab--c"` among the rejected
vectors, but the validator accepts it — consecutive inner hyphens pass all
four stated conditions. -/
theorem check_GitHubLogin_format_accepts_double_hyphen :
    check_GitHubLogin_format "login" (String.toList "ab--c")
      = Except.ok (String.toList "ab--c") := by decide

theorem splitFirstSlash_append (org slug : List Char) (h : '/' ∉ org) :
    splitFirstSlash (org ++ '/' :: slug) = some (org, slug) := by
  induction org with
  | nil => simp [splitFirstSlash]
  | cons c cs ih =>
    have hc : ¬ c = '/' := fun hc => h (hc ▸ List.mem_cons_self c cs)
    simp [splitFirstSlash, hc, ih (fun hm => h (List.mem_cons_of_mem _ hm))]

theorem splitFirstSlash_eq_none (v : List Char) (h : '/' ∉ v) :
    splitFirstSlash v = none := by
  induction v with
  | nil => rfl
  | cons c cs ih =>
    have hc : ¬ c = '/' := fun hc => h (hc ▸ List.mem_cons_self c cs)
    simp [splitFirstSlash, hc, ih (fun hm => h (List.mem_cons_of_mem _ hm))]

theorem teamRejectSpec_cons_iff (c : Char) (cs : List Char) :
    teamRejectSpec (c :: cs) ↔
      (c == '-' || lastChar (c :: cs) == '-' || !(pyIsAscii (c :: cs))
        || !(pyIsAlnum (pyStripChar '_' (pyStripChar '-' (c :: cs))))) = true := by
  rw [teamRejectSpec, lastChar_eq_getLast?]
  simp only [Bool.or_eq_true, Bool.not_eq_true', beq_iff_eq, List.head?_cons,
    Option.some.injEq, List.cons_ne_nil, false_or]
  tauto

theorem teamSlug_isOk_false_iff (v : List Char) :
    (teamSlugCheck v).isOk = false ↔ teamRejectSpec v := by
  cases v with
  | nil => simp [teamSlugCheck, teamRejectSpec, Except.isOk, Except.toBool]
  | cons c cs =>
    rw [teamSlugCheck, teamRejectSpec_cons_iff]
    by_cases h : (c == '-' || lastChar (c :: cs) == '-' || !(pyIsAscii (c :: cs))
        || !(pyIsAlnum (pyStripChar '_' (pyStripChar '-' (c :: cs))))) = true
    · simp [h, Except.isOk, Except.toBool]
    · simp [h, Except.isOk, Except.toBool]

theorem teamSlugCheck_ok_eq (slug r : List Char)
    (h : teamSlugCheck slug = Except.ok r) : r = slug := by
  cases slug with
  | nil => simp [teamSlugCheck] at h
  | cons c cs =>
    rw [teamSlugCheck] at h
    by_cases hb : (c == '-' || lastChar (c :: cs) == '-' || !(pyIsAscii (c :: cs))
        || !(pyIsAlnum (pyStripChar '_' (pyStripChar '-' (c :: cs))))) = true
    · simp [hb] at h
    · simp [hb] at h
      exact h.symm

/-- Claim C3, counterexample: the validator does not return the pair
`(organization?, slug)` — it returns the slug alone, discarding the
organization it validated.  `"@org/team-1"` and `"@xyz/team-1"` yield the
identical result `Except.ok "team-1"`, so no organization can be recovered
from it, while the pair-returning function written from the spec's words
distinguishes the two inputs. -/
theorem check_GitHubTeam_format_drops_organization :
    check_GitHubTeam_format (String.toList "@org/team-1")
        = check_GitHubTeam_format (String.toList "@xyz/team-1")
    ∧ check_GitHubTeam_format (String.toList "@org/team-1")
        = Except.ok (String.toList "team-1")
    ∧ teamReferenceSpec (String.toList "@org/team-1")
        ≠ teamReferenceSpec (String.toList "@xyz/team-1") := by
  refine ⟨by decide, by decide, by decide⟩

/-- Claim C3 (amended): the team-reference validator accepts an optional
leading `@` and an optional `organization/` prefix — in every combination:
with or without the `@`, with or without the organization — whose
organization part is validated by the account-login rules (a failing
organization propagates that error); the slug is rejected exactly when
empty, leading/trailing hyphen, non-ASCII, or non-alphanumeric residue after
stripping hyphens and underscores; on success it returns the team slug alone
(the organization is validated but not part of the result), and in
particular `"@org/team-1"` is accepted with result slug `"team-1"`. -/
theorem check_GitHubTeam_format_spec :
    (∀ org slug e, '/' ∉ org →
        check_GitHubLogin_format "organization" org = Except.error e →
        check_GitHubTeam_format ('@' :: (org ++ '/' :: slug)) = Except.error e)
    ∧ (∀ org slug r, '/' ∉ org →
        check_GitHubLogin_format "organization" org = Except.ok r →
        check_GitHubTeam_format ('@' :: (org ++ '/' :: slug)) = teamSlugCheck slug)
    ∧ (∀ org slug e, '/' ∉ org → org.head? ≠ some '@' →
        check_GitHubLogin_format "organization" org = Except.error e →
        check_GitHubTeam_format (org ++ '/' :: slug) = Except.error e)
    ∧ (∀ org slug r, '/' ∉ org → org.head? ≠ some '@' →
        check_GitHubLogin_format "organization" org = Except.ok r →
        check_GitHubTeam_format (org ++ '/' :: slug) = teamSlugCheck slug)
    ∧ (∀ v, '/' ∉ v → check_GitHubTeam_format ('@' :: v) = teamSlugCheck v)
    ∧ (∀ c cs, ¬ c = '@' → '/' ∉ c :: cs →
        check_GitHubTeam_format (c :: cs) = teamSlugCheck (c :: cs))
    ∧ (∀ v, (teamSlugCheck v).isOk = false ↔ teamRejectSpec v)
    ∧ (∀ slug r, teamSlugCheck slug = Except.ok r → r = slug)
    ∧ check_GitHubTeam_format (String.toList "@org/team-1")
        = Except.ok (String.toList "team-1") := by
  refine ⟨?_, ?_, ?_, ?_, ?_, ?_, teamSlug_isOk_false_iff, teamSlugCheck_ok_eq, by decide⟩
  · intro org slug e hns hlogin
    simp [check_GitHubTeam_format, splitFirstSlash_append org slug hns, hlogin]
  · intro org slug r hns hlogin
    simp [check_GitHubTeam_format, splitFirstSlash_append org slug hns, hlogin]
  · intro org slug e hns hat hlogin
    cases org with
    | nil =>
      simp [check_GitHubLogin_format] at hlogin
      simp [check_GitHubTeam_format, splitFirstSlash, check_GitHubLogin_format, hlogin]
    | cons a os =>
      have ha : ¬ a = '@' := fun h => hat (by simp [h])
      have hsplit : splitFirstSlash (a :: (os ++ '/' :: slug)) = some (a :: os, slug) :=
        splitFirstSlash_append (a :: os) slug hns
      simp [check_GitHubTeam_format, ha, hsplit, hlogin]
  · intro org slug r hns hat hlogin
    cases org with
    | nil => simp [check_GitHubLogin_format] at hlogin
    | cons a os =>
      have ha : ¬ a = '@' := fun h => hat (by simp [h])
      have hsplit : splitFirstSlash (a :: (os ++ '/' :: slug)) = some (a :: os, slug) :=
        splitFirstSlash_append (a :: os) slug hns
      simp [check_GitHubTeam_format, ha, hsplit, hlogin]
  · intro v hns
    simp [check_GitHubTeam_format, splitFirstSlash_eq_none v hns]
  · intro c cs hat hns
    simp [check_GitHubTeam_format, hat, splitFirstSlash_eq_none _ hns]

/-- Concrete instantiation of `check_GitHubTeam_format_spec`: a rejected
organization propagates its error with and without the leading `@`,
`"@org/team-1"` and `"org/team-1"` reduce to the slug check of `"team-1"`,
the `@` and the raw form reduce to the slug check, and the successful slug
check returns the slug. -/
theorem check_GitHubTeam_format_spec_witness :
    check_GitHubTeam_format ('@' :: (String.toList "-x" ++ '/' :: String.toList "team"))
        = Except.error "GitHub organization contains invalid characters"
    ∧ check_GitHubTeam_format ('@' :: (String.toList "org" ++ '/' :: String.toList "team-1"))
        = teamSlugCheck (String.toList "team-1")
    ∧ check_GitHubTeam_format (String.toList "-x" ++ '/' :: String.toList "team")
        = Except.error "GitHub organization contains invalid characters"
    ∧ check_GitHubTeam_format (String.toList "org" ++ '/' :: String.toList "team-1")
        = teamSlugCheck (String.toList "team-1")
    ∧ check_GitHubTeam_format ('@' :: String.toList "team") = teamSlugCheck (String.toList "team")
    ∧ check_GitHubTeam_format ('t' :: String.toList "eam") = teamSlugCheck ('t' :: String.toList "eam")
    ∧ String.toList "team-1" = String.toList "team-1" :=
  ⟨check_GitHubTeam_format_spec.1 (String.toList "-x") (String.toList "team")
      "GitHub organization contains invalid characters" (by decide) (by decide),
   check_GitHubTeam_format_spec.2.1 (String.toList "org") (String.toList "team-1")
      (String.toList "org") (by decide) (by decide),
   check_GitHubTeam_format_spec.2.2.1 (String.toList "-x") (String.toList "team")
      "GitHub organization contains invalid characters" (by decide) (by decide) (by decide),
   check_GitHubTeam_format_spec.2.2.2.1 (String.toList "org") (String.toList "team-1")
      (String.toList "org") (by decide) (by decide) (by decide),
   check_GitHubTeam_format_spec.2.2.2.2.1 (String.toList "team") (by decide),
   check_GitHubTeam_format_spec.2.2.2.2.2.1 't' (String.toList "eam") (by decide) (by decide),
   check_GitHubTeam_format_spec.2.2.2.2.2.2.2.1 (String.toList "team-1")
      (String.toList "team-1") (by decide)⟩

/-! ## Claims about the template validators -/

/-- Claim C2: the strict validator rejects a null template with the dedicated
"Template cannot be null" error, whatever the parser — so before any parsing
— while `Jinja2WithNone` maps null to null without parsing; on every non-null
input the two validators agree definitionally; and every failure the strict
validator produces on a non-null template carries the distinct
"Template syntax error" message. -/
theorem Jinja2_null_handling :
    (∀ parse A L extra, Jinja2 parse A L none extra
        = Except.error (Invalid.mk "Template cannot be null" none none))
    ∧ (∀ parse A L extra, Jinja2WithNone parse A L none extra = Except.ok none)
    ∧ (∀ parse A L v extra,
        Jinja2WithNone parse A L (some v) extra = Jinja2 parse A L (some v) extra)
    ∧ (∀ parse A L v extra e, Jinja2 parse A L (some v) extra = Except.error e →
        e.msg = "Template syntax error")
    ∧ "Template cannot be null" ≠ "Template syntax error" := by
  refine ⟨fun _ _ _ _ => rfl, fun _ _ _ _ => rfl, fun _ _ _ _ _ => rfl, ?_, by decide⟩
  intro parse A L v extra e h
  simp only [Jinja2] at h
  split at h
  · cases h
    rfl
  · cases h

/-- Concrete instantiation of `Jinja2_null_handling`: with the
always-failing parser, the strict validator's failure on a non-null template
carries the "Template syntax error" message. -/
theorem Jinja2_null_handling_witness :
    (Invalid.mk "Template syntax error" (some "unexpected end of template")
        (some [LineColumnPath.mk 1 none])).msg = "Template syntax error" :=
  Jinja2_null_handling.2.2.2.1 parseNever [] [] "x" none
    (Invalid.mk "Template syntax error" (some "unexpected end of template")
        (some [LineColumnPath.mk 1 none])) (by decide)

/-- Claim C6: with the scalar and list attribute sets disjoint (as the spec
declares them), the synthetic resolution returns the fixed `None` zero-value
on every scalar attribute, the empty list on every list attribute, and fails
with the unknown-attribute error carrying the key on every other name — and,
being a plain function, it never suspends. -/
theorem get_consolidated_data_cases (A L : List String) (key : String)
    (hdisj : ∀ x ∈ A, x ∉ L) :
    (key ∈ A → get_consolidated_data A L key = Except.ok Value.vnone)
    ∧ (key ∈ L → get_consolidated_data A L key = Except.ok (Value.vlist []))
    ∧ (key ∉ A → key ∉ L → get_consolidated_data A L key = Except.error key) := by
  refine ⟨fun hA => by simp [get_consolidated_data, hA], fun hL => ?_,
    fun hA hL => by simp [get_consolidated_data, hA, hL]⟩
  have hA : key ∉ A := fun hA => hdisj key hA hL
  simp [get_consolidated_data, hA, hL]

/-- Concrete instantiation of `get_consolidated_data_cases` on the sets
`{"title"}` / `{"label"}`. -/
theorem get_consolidated_data_cases_witness :
    get_consolidated_data ["title"] ["label"] "title" = Except.ok Value.vnone
    ∧ get_consolidated_data ["title"] ["label"] "label" = Except.ok (Value.vlist [])
    ∧ get_consolidated_data ["title"] ["label"] "zzz" = Except.error "zzz" :=
  ⟨(get_consolidated_data_cases ["title"] ["label"] "title" (by decide)).1 (by decide),
   (get_consolidated_data_cases ["title"] ["label"] "label" (by decide)).2.1 (by decide),
   (get_consolidated_data_cases ["title"] ["label"] "zzz" (by decide)).2.2
      (by decide) (by decide)⟩

/-- Claim C10: attribute lookup through the dummy pull request first rewrites
every underscore of the requested name to a hyphen — `"merged_by"` is looked
up as `"merged-by"` — and a name whose hyphenated translation is in neither
attribute set fails as an unknown attribute (carrying the translated key). -/
theorem dummyGetattr_hyphenates :
    (∀ A L name, dummyGetattr A L name
        = get_consolidated_data A L (underscoreToHyphen name))
    ∧ underscoreToHyphen "merged_by" = "merged-by"
    ∧ (∀ A L name, underscoreToHyphen name ∈ A →
        dummyGetattr A L name = Except.ok Value.vnone)
    ∧ (∀ A L name, underscoreToHyphen name ∉ A → underscoreToHyphen name ∉ L →
        dummyGetattr A L name = Except.error (underscoreToHyphen name)) := by
  refine ⟨fun _ _ _ => rfl, by decide, ?_, ?_⟩
  · intro A L name h
    simp [dummyGetattr, get_consolidated_data, h]
  · intro A L name h1 h2
    simp [dummyGetattr, get_consolidated_data, h1, h2]

/-- Concrete instantiation of `dummyGetattr_hyphenates`: `"merged_by"`
resolves against the hyphenated key, and an unknown name fails with its
hyphenated translation. -/
theorem dummyGetattr_hyphenates_witness :
    dummyGetattr ["merged-by"] [] "merged_by" = Except.ok Value.vnone
    ∧ dummyGetattr ["merged-by"] [] "zzz_yy" = Except.error "zzz-yy" :=
  ⟨dummyGetattr_hyphenates.2.2.1 ["merged-by"] [] "merged_by" (by decide),
   (by decide : underscoreToHyphen "zzz_yy" = "zzz-yy") ▸
     dummyGetattr_hyphenates.2.2.2 ["merged-by"] [] "zzz_yy" (by decide) (by decide)⟩

theorem lookup_mem {β : Type} (l : List (String × β)) (k : String) (v : β)
    (h : l.lookup k = some v) : (k, v) ∈ l := by
  induction l with
  | nil => simp [List.lookup] at h
  | cons p ps ih =>
    obtain ⟨a, b⟩ := p
    rw [List.lookup_cons] at h
    by_cases hk : (k == a) = true
    · have hka : k = a := by simpa using hk
      simp only [hk] at h
      cases h
      rw [hka]
      exact List.mem_cons_self _ _
    · simp only [Bool.not_eq_true] at hk
      simp only [hk] at h
      exact List.mem_cons_of_mem _ (ih h)

theorem buildInfos_mem_ok (resolve : String → Except RenderTemplateFailure Value)
    (ks : List String) :
    ∀ infos, buildInfos resolve ks = Except.ok infos →
      ∀ k ∈ ks, ∃ v, resolve k = Except.ok v := by
  induction ks with
  | nil =>
    intro infos _ k hk
    simp at hk
  | cons k' ks ih =>
    intro infos h k hk
    simp only [buildInfos] at h
    cases hr : resolve k' with
    | error e => simp [hr] at h
    | ok v =>
      simp only [hr] at h
      cases hrest : buildInfos resolve ks with
      | error e => simp [hrest] at h
      | ok rest =>
        rcases List.mem_cons.mp hk with rfl | hk'
        · exact ⟨v, hr⟩
        · exact ih rest hrest k hk'

theorem buildInfos_ok_of_all (resolve : String → Except RenderTemplateFailure Value)
    (ks : List String) :
    (∀ k ∈ ks, (resolve k).isOk = true) →
      ∃ infos, buildInfos resolve ks = Except.ok infos := by
  induction ks with
  | nil => exact fun _ => ⟨[], rfl⟩
  | cons k ks ih =>
    intro h
    have hk := h k (List.mem_cons_self _ _)
    cases hr : resolve k with
    | error e => rw [hr] at hk; simp [Except.isOk, Except.toBool] at hk
    | ok v =>
      obtain ⟨infos, hi⟩ := ih (fun x hx => h x (List.mem_cons_of_mem _ hx))
      exact ⟨(k, v) :: infos, by simp [buildInfos, hr, hi]⟩

theorem buildInfos_error_of_mem (resolve : String → Except RenderTemplateFailure Value)
    (ks : List String) :
    ∀ k e, k ∈ ks → resolve k = Except.error e →
      ∃ e2, buildInfos resolve ks = Except.error e2 := by
  induction ks with
  | nil =>
    intro k e hk
    simp at hk
  | cons k' ks ih =>
    intro k e hk hres
    cases hr : resolve k' with
    | error e3 => exact ⟨e3, by simp [buildInfos, hr]⟩
    | ok v =>
      rcases List.mem_cons.mp hk with rfl | hk'
      · rw [hres] at hr
        exact Except.noConfusion hr
      · obtain ⟨e2, he2⟩ := ih k e hk' hres
        exact ⟨e2, by simp [buildInfos, hr, he2]⟩

theorem buildInfos_lookup (resolve : String → Except RenderTemplateFailure Value)
    (ks : List String) :
    ∀ infos k v, buildInfos resolve ks = Except.ok infos → k ∈ ks →
      resolve k = Except.ok v → infos.lookup k = some v := by
  induction ks with
  | nil =>
    intro infos k v _ hk
    simp at hk
  | cons k' ks ih =>
    intro infos k v h hk hres
    simp only [buildInfos] at h
    cases hr : resolve k' with
    | error e => simp [hr] at h
    | ok w =>
      simp only [hr] at h
      cases hrest : buildInfos resolve ks with
      | error e => simp [hrest] at h
      | ok rest =>
        simp only [hrest] at h
        cases h
        by_cases hkk : k = k'
        · subst hkk
          rw [hres] at hr
          cases hr
          simp [List.lookup_cons]
        · have hbeq : (k == k') = false := by simpa using hkk
          rcases List.mem_cons.mp hk with rfl | hk'
          · exact absurd rfl hkk
          · rw [List.lookup_cons]
            simp only [hbeq]
            exact ih rest k v hrest hk' hres

theorem renderAst_error_is_renderFailure (infos : List (String × Value)) :
    ∀ t e, renderAst infos t = Except.error e →
      ∃ m, e = RenderTemplateFailure.renderFailure m := by
  intro t
  induction t with
  | lit s =>
    intro e h
    simp [renderAst] at h
  | var n =>
    intro e h
    simp only [renderAst] at h
    cases hl : infos.lookup n with
    | some v => simp [hl] at h
    | none =>
      simp only [hl] at h
      cases h
      exact ⟨n ++ " is undefined", rfl⟩
  | seq a b iha ihb =>
    intro e h
    simp only [renderAst] at h
    cases ha : renderAst infos a with
    | error ea =>
      simp only [ha] at h
      cases h
      exact iha _ ha
    | ok xa =>
      simp only [ha] at h
      cases hb : renderAst infos b with
      | error eb =>
        simp only [hb] at h
        cases h
        exact ihb _ hb
      | ok xb => simp [hb] at h

/-- Claim C7: when rendering, a free variable found in a (non-empty)
extra-variables mapping is substituted with the mapping's value even when the
name also resolves as a pull-request attribute — the extra variables take
priority.  The first part observes it on a single-variable template; the
second part states it for the `infos` substitution table of an arbitrary
variable list. -/
theorem extra_variables_priority :
    (∀ parse A L ev k v t, parse t = Except.ok (Tmpl.var k) →
        ev.isEmpty = false → ev.lookup k = some v →
        (dummyGetattr A L k).isOk = true →
        render_template parse A L t (some ev) = Except.ok (valueToStr v))
    ∧ (∀ A L ev k v ks infos, ev.isEmpty = false → ev.lookup k = some v → k ∈ ks →
        buildInfos (resolveVar A L (some ev)) ks = Except.ok infos →
        infos.lookup k = some v) := by
  constructor
  · intro parse A L ev k v t hp he hl _
    simp [render_template, render_templateWith, hp, tmplVars, buildInfos,
      resolveVar, lookupExtra, he, hl, renderAst, List.lookup_cons]
  · intro A L ev k v ks infos he hl hk hb
    have hres : resolveVar A L (some ev) k = Except.ok v := by
      simp [resolveVar, lookupExtra, he, hl]
    exact buildInfos_lookup _ ks infos k v hb hk hres

/-- Concrete instantiation of `extra_variables_priority`: the name `title`
is a scalar attribute (it would resolve to `None`), but the supplied extra
variable wins and the rendered output is its value. -/
theorem extra_variables_priority_witness :
    render_template (parseConst (Tmpl.var "title")) ["title"] []
        "tmpl-title" (some [("title", Value.vstr "override")])
      = Except.ok "override" :=
  extra_variables_priority.1 (parseConst (Tmpl.var "title")) ["title"] []
    [("title", Value.vstr "override")] "title" (Value.vstr "override")
    "tmpl-title" (by decide) (by decide) (by decide) (by decide)

/-- Claim C5: during validation, a reference to a name outside both the
attribute universe (after underscore-to-hyphen translation) and the supplied
extra-variable set surfaces as the same "Template syntax error" validation
failure that a parse error produces — the two are reported under one
indistinguishable headline message. -/
theorem unknown_name_blocks_validation :
    (∀ parse A L extra t pe, parse t = Except.error pe →
        reportsTemplateError (Jinja2 parse A L (some t) extra) = true)
    ∧ (∀ parse A L extra t ast k, parse t = Except.ok ast → k ∈ tmplVars ast →
        lookupExtra extra k = none →
        underscoreToHyphen k ∉ A → underscoreToHyphen k ∉ L →
        reportsTemplateError (Jinja2 parse A L (some t) extra) = true) := by
  constructor
  · intro parse A L extra t pe hp
    simp [Jinja2, render_template, render_templateWith, hp, reportsTemplateError]
  · intro parse A L extra t ast k hp hk hle hA hL
    have hres : resolveVar A L extra k
        = Except.error (RenderTemplateFailure.unknownAttribute (underscoreToHyphen k)) := by
      simp [resolveVar, hle, dummyGetattr, get_consolidated_data, hA, hL]
    obtain ⟨e2, he2⟩ :=
      buildInfos_error_of_mem (resolveVar A L extra) (tmplVars ast) k _ hk hres
    simp [Jinja2, render_template, render_templateWith, hp, he2, reportsTemplateError]

/-- Concrete instantiation of `unknown_name_blocks_validation`: a parse
failure and a reference to the unknown name `foo` both surface as the
"Template syntax error" validation failure. -/
theorem unknown_name_blocks_validation_witness :
    reportsTemplateError (Jinja2 parseNever ["title"] [] (some "tmpl-broken") none) = true
    ∧ reportsTemplateError
        (Jinja2 (parseConst (Tmpl.var "foo")) ["title"] [] (some "tmpl-foo") none) = true :=
  ⟨unknown_name_blocks_validation.1 parseNever ["title"] [] none "tmpl-broken"
      (ParseError.mk "unexpected end of template" 1) (by decide),
   unknown_name_blocks_validation.2 (parseConst (Tmpl.var "foo")) ["title"] [] none
      "tmpl-foo" (Tmpl.var "foo") "foo" (by decide) (by decide) (by decide)
      (by decide) (by decide)⟩

theorem get_consolidated_data_ok_mem (A L : List String) (key : String) (w : Value)
    (h : get_consolidated_data A L key = Except.ok w) : key ∈ A ∨ key ∈ L := by
  by_cases hA : key ∈ A
  · exact Or.inl hA
  by_cases hL : key ∈ L
  · exact Or.inr hL
  · simp [get_consolidated_data, hA, hL] at h

/-- Claim C8: an expression the validator accepts with extra-variable set `S`
never fails with an unknown-attribute error when rendered on the live path
with at least `S` supplied as extra variables and every attribute name of the
universe present in the live store. -/
theorem validate_render_round_trip (parse : String → Except ParseError Tmpl)
    (A L : List String) (t : String) (S Sr : List (String × Value))
    (live : String → Option Value) (r : Option String)
    (hok : Jinja2 parse A L (some t) (some S) = Except.ok r)
    (hS : ∀ p ∈ S, (lookupExtra (some Sr) p.1).isSome = true)
    (hliveA : ∀ key ∈ A, (live key).isSome = true)
    (hliveL : ∀ key ∈ L, (live key).isSome = true) :
    isUnknownAttributeFailure (render_templateLive parse live t (some Sr)) = false := by
  have hrt : ∃ s, render_template parse A L t (some S) = Except.ok s := by
    simp only [Jinja2] at hok
    cases hr : render_template parse A L t (some S) with
    | error rtf => simp [hr] at hok
    | ok s => exact ⟨s, rfl⟩
  obtain ⟨s, hs⟩ := hrt
  rw [render_template, render_templateWith] at hs
  cases hp : parse t with
  | error pe => simp [hp] at hs
  | ok ast =>
    simp only [hp] at hs
    cases hb : buildInfos (resolveVar A L (some S)) (tmplVars ast) with
    | error e => simp [hb] at hs
    | ok infos =>
      have hall := buildInfos_mem_ok (resolveVar A L (some S)) (tmplVars ast) infos hb
      have hallLive : ∀ k ∈ tmplVars ast, (resolveVarLive live (some Sr) k).isOk = true := by
        intro k hk
        obtain ⟨v, hv⟩ := hall k hk
        rw [resolveVar] at hv
        cases hle : lookupExtra (some S) k with
        | some w =>
          have hkS : (k, w) ∈ S := by
            rw [lookupExtra] at hle
            by_cases hSe : S.isEmpty = true
            · simp [hSe] at hle
            · simp only [Bool.not_eq_true] at hSe
              simp only [hSe, if_neg] at hle
              exact lookup_mem S k w (by simpa using hle)
          have hSr := hS (k, w) hkS
          rw [resolveVarLive]
          cases hle2 : lookupExtra (some Sr) k with
          | some u => simp [Except.isOk, Except.toBool]
          | none => simp [hle2] at hSr
        | none =>
          simp only [hle] at hv
          cases hd : dummyGetattr A L k with
          | error n => simp [hd] at hv
          | ok w =>
            have hmem : underscoreToHyphen k ∈ A ∨ underscoreToHyphen k ∈ L :=
              get_consolidated_data_ok_mem A L _ w hd
            have hlive : (live (underscoreToHyphen k)).isSome = true := by
              rcases hmem with h | h
              · exact hliveA _ h
              · exact hliveL _ h
            rw [resolveVarLive]
            cases hle2 : lookupExtra (some Sr) k with
            | some u => simp [Except.isOk, Except.toBool]
            | none =>
              cases hlv : live (underscoreToHyphen k) with
              | none => simp [hlv] at hlive
              | some u => simp [hlv, Except.isOk, Except.toBool]
      obtain ⟨infos2, hb2⟩ :=
        buildInfos_ok_of_all (resolveVarLive live (some Sr)) (tmplVars ast) hallLive
      simp only [render_templateLive, render_templateWith, hp, hb2]
      cases hra : renderAst infos2 ast with
      | ok out => simp [hra, isUnknownAttributeFailure]
      | error e =>
        obtain ⟨m, hm⟩ := renderAst_error_is_renderFailure infos2 ast e hra
        simp [hra, hm, isUnknownAttributeFailure]

/-- Concrete instantiation of `validate_render_round_trip`: a title-referencing template
validates with no extra variables against the scalar universe `{"title"}`,
and the live render against a store supplying `title` is not an
unknown-attribute failure. -/
theorem validate_render_round_trip_witness :
    isUnknownAttributeFailure
      (render_templateLive (parseConst (Tmpl.var "title"))
        (fun key => if key == "title" then some (Value.vstr "hello") else none)
        "tmpl-title" (some [])) = false :=
  validate_render_round_trip (parseConst (Tmpl.var "title")) ["title"] []
    "tmpl-title" [] []
    (fun key => if key == "title" then some (Value.vstr "hello") else none)
    (some "tmpl-title") (by decide) (by decide) (by decide) (by decide)

end Mergify
